import Mathlib

/-!
Shallow embedding of the Blood Glucose Monitor desktop application
(`blood_app.py`, `info_frame.py`, `insights_generator.py`, `main_frame.py`,
`all_users_frame.py`) and proofs about its data model and operations.

Python floats are modelled as rationals (`ℚ`), Python ints as `Int`/`Nat`,
Python dicts as association lists with CPython's insertion-order update
semantics, and the filesystem state of the user JSON file as an inductive
(`missing` / `corrupt` / `parsed`).  Library calls (`float`, `datetime.strptime`,
`pd.cut`, `DataFrame.between_time`, `json.load`) are embedded by their
documented semantics at the call sites used by the program.
-/

namespace BloodApp

/-! ## Dates

`datetime.strptime(dob, '%Y-%m-%d')` and `datetime.today()` are modelled by
a plain year/month/day record; `parseDateYMD` embeds strptime with the
`%Y-%m-%d` format: split on `-`, three numeric fields, month in 1..12 and
day valid for that month (Gregorian leap rule). -/

structure PDate where
  year : Int
  month : Nat
  day : Nat
deriving DecidableEq, Repr

def isLeapYear (y : Int) : Bool :=
  y % 4 = 0 && (y % 100 ≠ 0 || y % 400 = 0)

def daysInMonth (y : Int) (m : Nat) : Nat :=
  if m = 2 then (if isLeapYear y then 29 else 28)
  else if m = 4 ∨ m = 6 ∨ m = 9 ∨ m = 11 then 30
  else 31

/-- Split a character list at every `-`, like `str.split('-')`. -/
def splitDash : List Char → List (List Char)
  | [] => [[]]
  | c :: rest =>
    if c = '-' then [] :: splitDash rest
    else
      match splitDash rest with
      | g :: gs => (c :: g) :: gs
      | [] => [[c]]

def digitsAux : List Char → Nat → Option Nat
  | [], acc => some acc
  | c :: rest, acc =>
    if '0' ≤ c ∧ c ≤ '9' then digitsAux rest (acc * 10 + (c.toNat - 48))
    else none

/-- The numeric value of a non-empty all-digit character group. -/
def digitsVal : List Char → Option Nat
  | [] => none
  | cs => digitsAux cs 0

def parseDateYMD (s : String) : Option PDate :=
  match splitDash s.data with
  | [ys, ms, ds] =>
    match digitsVal ys, digitsVal ms, digitsVal ds with
    | some y, some m, some d =>
      if 1 ≤ m ∧ m ≤ 12 ∧ 1 ≤ d ∧ d ≤ daysInMonth y m then
        some ⟨(y : Int), m, d⟩
      else none
    | _, _, _ => none
  | _ => none

/-- Python tuple comparison `(a, b) < (c, d)` on `(month, day)` pairs,
as used in `info_frame.py` line 204. -/
def tupLt (a b : Nat × Nat) : Bool :=
  a.1 < b.1 || (a.1 = b.1 && a.2 < b.2)

/-! ## Association lists as Python dicts

`alookup` is dict lookup (keys are unique in a Python dict, so first match
is the only match); `assocSet` is `d[k] = v` (replace in place, else append);
`dictUpdate` is `d.update(nd)` (CPython: iterate the items of `nd`, doing
`d[k] = v` for each). -/

def alookup {α : Type} : List (String × α) → String → Option α
  | [], _ => none
  | (k, v) :: rest, q => if q = k then some v else alookup rest q

def assocSet {α : Type} : List (String × α) → String → α → List (String × α)
  | [], k, v => [(k, v)]
  | (k0, v0) :: rest, k, v =>
    if k0 = k then (k0, v) :: rest else (k0, v0) :: assocSet rest k v

def dictUpdate {α : Type} (m nd : List (String × α)) : List (String × α) :=
  nd.foldl (fun acc p => assocSet acc p.1 p.2) m

/-! ## The user JSON file (`blood_app.py`)

`FileState` is the state of `user_info.json`: absent (`open` raises
`FileNotFoundError`), present but not JSON (`json.load` raises
`JSONDecodeError`), or a parsed JSON object mapping user names to records.
`LoadResult` is the Python value `load_user_data` returns: `None`, a dict,
or a single record (`data.get(username, {})` when the key is present). -/

inductive FileState (α : Type) where
  | missing
  | corrupt
  | parsed (m : List (String × α))
deriving DecidableEq, Repr

inductive LoadResult (α : Type) where
  | pynone
  | dict (m : List (String × α))
  | val (a : α)
deriving DecidableEq, Repr

/-- Embedding of `App.load_user_data` (`blood_app.py` lines 73–90).  `username = none`
models the default-argument call; `if username:` is Python truthiness, so an
empty-string username behaves like no username. -/
def load_user_data {α : Type} (fs : FileState α) (username : Option String) :
    LoadResult α :=
  match fs with
  | .parsed m =>
    match username with
    | some u =>
      if u = "" then .dict m
      else
        match alookup m u with
        | some r => .val r
        | none => .dict []
    | none => .dict m
  | _ =>
    match username with
    | some u => if u = "" then .dict [] else .pynone
    | none => .dict []

/-- The dict obtained by `data = self.load_user_data()` inside
`save_user_data` and `analyze_all_users` (the no-username call always
returns a dict). -/
def load_all {α : Type} (fs : FileState α) : List (String × α) :=
  match load_user_data fs none with
  | .dict m => m
  | _ => []

/-- Embedding of `App.save_user_data` (`blood_app.py` lines 120–133): re-load the file,
`data.update(new_data)`, write the result back as JSON. -/
def save_user_data {α : Type} (fs : FileState α) (new_data : List (String × α)) :
    FileState α :=
  .parsed (dictUpdate (load_all fs) new_data)

/-! ## The user-profile form (`info_frame.py`) -/

structure UserRecord where
  gender : String
  dob : String
  age : Int
  weight : ℚ
  height : ℚ
  bmi : ℚ
  diabetes_type : String
deriving DecidableEq, Repr

/-- The text currently in the form's entry widgets and variables. -/
structure InfoForm where
  name : String
  gender : String
  dob : String
  weightStr : String
  heightStr : String
  diabetes : String
deriving DecidableEq, Repr

/-- Outcome of `update_bmi`: the label is set to a computed BMI, reset to
the blank `"BMI: "` on a `ValueError` from `float`, or an uncaught
`ZeroDivisionError` propagates (height parses to `0`, so `weight / height**2`
divides by zero — `except ValueError` does not catch it). -/
inductive UpdateBMIResult where
  | label (b : ℚ)
  | cleared
  | exn
deriving DecidableEq, Repr

/-- Embedding of `InfoFrame.update_bmi` (`info_frame.py` lines 169–182).  `wp` and `hp`
are the results of `float()` on the weight and height entry texts
(`none` models a `ValueError`). -/
def update_bmi (wp hp : Option ℚ) : UpdateBMIResult :=
  match wp, hp with
  | some w, some h0 =>
    let h := h0 / 100
    if h = 0 then .exn else .label (w / h ^ 2)
  | _, _ => .cleared

/-- Outcome of `save_user_info`: a modal error dialog with the given
message, an uncaught exception propagating out of the callback, or a
successful save producing the stored record. -/
inductive SaveResult where
  | dialog (msg : String)
  | exn
  | ok (rec : UserRecord)
deriving DecidableEq, Repr

/-- The record written by a successful `save_user_info`
(`info_frame.py` lines 220–228): `age` from the tuple-comparison formula on
line 204, `height` stored back in cm (`height * 100` after the `/ 100`),
`bmi = weight / height_m²`. -/
def mkUserRecord (today : PDate) (f : InfoForm) (birth_date : PDate)
    (weight h0 : ℚ) : UserRecord :=
  ⟨f.gender, f.dob,
   today.year - birth_date.year -
     (if tupLt (today.month, today.day) (birth_date.month, birth_date.day)
      then 1 else 0),
   weight, h0 / 100 * 100, weight / (h0 / 100) ^ 2, f.diabetes⟩

/-- Embedding of `InfoFrame.save_user_info` (`info_frame.py` lines 184–235), returning
the outcome together with the resulting `users_info` dict.  `parseFloat`
models Python's `float` on entry text (`none` = `ValueError`); the date of
birth is parsed by `datetime.strptime(dob, '%Y-%m-%d')` *outside* any
`try`, so a parse failure is an uncaught `ValueError` (`.exn`), and a height
parsing to `0` raises an uncaught `ZeroDivisionError` in the BMI
computation (`.exn`, since `except ValueError` does not catch it).
`selected` is `self.app.main_frame.selected_user` (`None` before any user
is chosen; `name != None` is true in Python). -/
def save_user_info (parseFloat : String → Option ℚ) (today : PDate)
    (selected : Option String) (users : List (String × UserRecord))
    (f : InfoForm) : SaveResult × List (String × UserRecord) :=
  if f.name = "" then (.dialog "Name is required.", users)
  else if (alookup users f.name).isSome ∧ some f.name ≠ selected then
    (.dialog "User already exists. Please choose a different name.", users)
  else if f.dob = "" then (.dialog "Date of birth is required.", users)
  else
    match parseDateYMD f.dob with
    | none => (.exn, users)
    | some birth_date =>
      match parseFloat f.weightStr, parseFloat f.heightStr with
      | some weight, some h0 =>
        if h0 / 100 = 0 then (.exn, users)
        else if f.diabetes = "Choose Diabetes Type" then
          (.dialog "Please select a diabetes type.", users)
        else
          (.ok (mkUserRecord today f birth_date weight h0),
           assocSet users f.name (mkUserRecord today f birth_date weight h0))
      | _, _ => (.dialog "Please enter valid weight and height.", users)

/-! ## Glucose categorization and insights (`insights_generator.py`, `main_frame.py`) -/

inductive GlucoseCategory where
  | low
  | normal
  | high
deriving DecidableEq, Repr

/-- One reading's category under
`pd.cut(values, bins=[0, low_threshold, high_threshold, float('inf')],
labels=['Low', 'Normal', 'High'])` (`insights_generator.py` lines 84–86 and
`main_frame.py` lines 201–203): with pandas' default `right=True` the bins
are the right-closed intervals `(0, low]`, `(low, high]`, `(high, ∞)`, and a
value outside every bin (here `v ≤ 0`) gets no category (NaN). -/
def categorize_value (low_threshold high_threshold v : ℚ) : Option GlucoseCategory :=
  if 0 < v ∧ v ≤ low_threshold then some .low
  else if low_threshold < v ∧ v ≤ high_threshold then some .normal
  else if high_threshold < v then some .high
  else none

/-- Embedding of `InsightsGenerator.categorize_data` (`insights_generator.py` lines 74–87):
the added `Category` column, one entry per reading. -/
def categorize_data (low_threshold high_threshold : ℚ) (readings : List ℚ) :
    List (Option GlucoseCategory) :=
  readings.map (categorize_value low_threshold high_threshold)

/-- Embedding of `DataFrame.between_time(start, end)` membership, for a time of day given
in minutes past midnight, with pandas' default inclusive endpoints: when
`start ≤ end` the window is `[start, end]`, and when `start > end` it wraps
midnight (`time ≥ start or time ≤ end`). -/
def between_time (s e t : Nat) : Bool :=
  if s ≤ e then s ≤ t && t ≤ e else s ≤ t || t ≤ e

/-- The five time-of-day windows of
`InsightsGenerator.generate_time_period_averages` (`insights_generator.py`
lines 113–119) and `MainFrame.generate_insights` (`main_frame.py` lines
211–224), as minutes past midnight. -/
def time_periods : List (String × Nat × Nat) :=
  [("Morning", 360, 540), ("Noon", 540, 720), ("Afternoon", 720, 1080),
   ("Evening", 1080, 1260), ("Night", 1260, 360)]

/-- Number of the five windows containing a given time of day. -/
def periods_containing (t : Nat) : Nat :=
  time_periods.countP (fun p => between_time p.2.1 p.2.2 t)

/-- The column check of `InsightsGenerator.show_insights`
(`insights_generator.py` line 131): the missing-columns dialog is shown
when the data is `None` or any of `'Meal'`, `'Blood Glucose Level (mg/dL)'`,
`'Notes'` is absent from the columns. -/
def show_insights_rejected (hasData : Bool) (cols : List String) : Bool :=
  !hasData || !(cols.contains "Meal")
    || !(cols.contains "Blood Glucose Level (mg/dL)")
    || !(cols.contains "Notes")

/-- The column check of `MainFrame.generate_insights` (`main_frame.py` line
188): after the dataset-loaded check, the missing-columns dialog is shown
exactly when `'Meal'` or `'Blood Glucose Level (mg/dL)'` is absent. -/
def generate_insights_rejected (cols : List String) : Bool :=
  !(cols.contains "Meal" && cols.contains "Blood Glucose Level (mg/dL)")

/-! ## All-users analysis (`all_users_frame.py`) -/

/-- A user record as seen by `AllUsersFrame`: only the presence and values
of the `'bmi'` and `'diabetes_type'` keys matter (`none` = key absent). -/
structure BRec where
  bmi? : Option ℚ
  dtype? : Option String
deriving DecidableEq, Repr

/-- The dict comprehension of `analyze_all_users` (`all_users_frame.py`
lines 41–42): keep users whose record has both keys. -/
def bmi_filter (ud : List (String × BRec)) : List (String × ℚ × String) :=
  ud.filterMap (fun p =>
    match p.2.bmi?, p.2.dtype? with
    | some b, some t => some (p.1, b, t)
    | _, _ => none)

/-- Embedding of `AllUsersFrame.analyze_all_users` (`all_users_frame.py` lines 35–49).
`bmi0` is the current value of the `bmi_data` attribute (`none` = never
assigned).  Returns the `bmi_data` attribute afterwards and the error
dialog shown, if any.  When `load_user_data()` is falsy the method returns
*before* the line that assigns `bmi_data`; when users exist but none has
both keys, `bmi_data` *is* assigned (the empty dict) before the dialog. -/
def analyze_all_users (fs : FileState BRec) (bmi0 : Option (List (String × ℚ × String))) :
    Option (List (String × ℚ × String)) × Option String :=
  let ud := load_all fs
  if ud.isEmpty then (bmi0, some "No user data found.")
  else
    let bd := bmi_filter ud
    if bd.isEmpty then
      (some bd, some "No BMI or diabetes type data available for users.")
    else (some bd, none)

/-- What `show_bmi_all_users` (or `show_avg_bmi_by_type`) does after calling
`analyze_all_users`: reading `self.bmi_data` raises `AttributeError` when
the attribute was never assigned; otherwise an empty (falsy) dict returns
cleanly and a non-empty one reaches the chart call. -/
inductive ShowOutcome where
  | attrError
  | cleanReturn
  | graphShown
deriving DecidableEq, Repr

/-- Embedding of `AllUsersFrame.show_bmi_all_users` (`all_users_frame.py` lines 51–55). -/
def show_bmi_all_users (fs : FileState BRec)
    (bmi0 : Option (List (String × ℚ × String))) : ShowOutcome :=
  match analyze_all_users fs bmi0 with
  | (none, _) => .attrError
  | (some l, _) => if l.isEmpty then .cleanReturn else .graphShown

/-! ### Concrete fixtures for witnesses and counterexamples -/

/-- A concrete stand-in for Python's `float` covering the entry texts used
in the concrete scenarios below. -/
def pfStub (s : String) : Option ℚ :=
  if s = "80" then some 80 else if s = "200" then some 200 else none

/-- A fully valid filled-in form: Alice, born 2000-01-15, 80 kg, 200 cm. -/
def formA : InfoForm := ⟨"Alice", "Female", "2000-01-15", "80", "200", "Type 1"⟩

/-- The same form with an unparseable date of birth. -/
def formBadDob : InfoForm := ⟨"Alice", "Female", "banana", "80", "200", "Type 1"⟩

/-- A stored record for Alice (BMI 80 / 2² = 20). -/
def recA : UserRecord := ⟨"Female", "2000-01-15", 26, 80, 200, 20, "Type 1"⟩

/-! ## Association-list lemmas (dict semantics) -/

theorem alookup_assocSet {α : Type} (m : List (String × α)) (k : String) (v : α)
    (q : String) :
    alookup (assocSet m k v) q = if q = k then some v else alookup m q := by
  induction m with
  | nil => simp [assocSet, alookup]
  | cons p rest ih =>
    obtain ⟨k0, v0⟩ := p
    by_cases hk : k0 = k
    · subst hk
      by_cases hq : q = k0 <;> simp [assocSet, alookup, hq]
    · by_cases hq : q = k0
      · subst hq
        simp [assocSet, hk, alookup, Ne.symm hk]
      · simp [assocSet, hk, alookup, hq, ih]

theorem alookup_eq_none_of_not_mem {α : Type} (l : List (String × α)) (k : String)
    (h : k ∉ l.map Prod.fst) : alookup l k = none := by
  induction l with
  | nil => rfl
  | cons p rest ih =>
    simp only [List.map_cons, List.mem_cons] at h
    push_neg at h
    simp [alookup, h.1, ih h.2]

theorem alookup_dictUpdate {α : Type} (nd : List (String × α))
    (hnd : (nd.map Prod.fst).Nodup) (m : List (String × α)) (q : String) :
    alookup (dictUpdate m nd) q =
      match alookup nd q with
      | some v => some v
      | none => alookup m q := by
  induction nd generalizing m with
  | nil => simp [dictUpdate, alookup]
  | cons p rest ih =>
    obtain ⟨k, v⟩ := p
    simp only [List.map_cons, List.nodup_cons] at hnd
    have hstep : dictUpdate m ((k, v) :: rest) = dictUpdate (assocSet m k v) rest := rfl
    rw [hstep, ih hnd.2]
    by_cases hq : q = k
    · subst hq
      have hn : alookup rest q = none :=
        alookup_eq_none_of_not_mem rest q hnd.1
      simp [hn, alookup, alookup_assocSet]
    · simp [alookup, hq, alookup_assocSet]

/-! ## Claim theorems -/

/-- C3: `categorize_data` assigns every glucose reading `v > 0` to exactly
one of the three categories using right-closed intervals: `Low` when
`0 < v ≤ low_threshold` (so a reading exactly at the low threshold is
`Low`), `Normal` when `low_threshold < v ≤ high_threshold` (so a reading
exactly at the high threshold is `Normal`), and `High` when
`v > high_threshold`; boundary values go to the lower-side category. -/
theorem categorize_value_spec (low_threshold high_threshold v : ℚ)
    (hl : 0 < low_threshold) (hlh : low_threshold < high_threshold) :
    (categorize_value low_threshold high_threshold v = some .low ↔
      0 < v ∧ v ≤ low_threshold) ∧
    (categorize_value low_threshold high_threshold v = some .normal ↔
      low_threshold < v ∧ v ≤ high_threshold) ∧
    (categorize_value low_threshold high_threshold v = some .high ↔
      high_threshold < v) ∧
    ((categorize_value low_threshold high_threshold v).isSome ↔ 0 < v) := by
  unfold categorize_value
  split_ifs with h1 h2 h3 <;>
    simp_all <;>
    first
      | linarith [h1.1, h1.2]
      | linarith [h2.1, h2.2]
      | linarith
      | (by_contra hc; push_neg at hc; linarith [h1 hc])

/-- Witness for C3 at the default thresholds 70/180: a reading exactly at
the low threshold is `Low`, exactly at the high threshold is `Normal`. -/
theorem categorize_value_spec_witness :
    categorize_value 70 180 70 = some GlucoseCategory.low ∧
    categorize_value 70 180 180 = some GlucoseCategory.normal :=
  ⟨(categorize_value_spec 70 180 70 (by norm_num) (by norm_num)).1.mpr
      (by norm_num),
   (categorize_value_spec 70 180 180 (by norm_num) (by norm_num)).2.1.mpr
      (by norm_num)⟩

/-- C4: `load_user_data` without a username returns the parsed JSON mapping
when the user file exists and parses, and the empty mapping when the file
is missing or not valid JSON; with a (non-empty) username it returns `None`
in those failure cases.  A missing or corrupt file is silently treated as
an empty user set. -/
theorem load_user_data_spec {α : Type} (fs : FileState α)
    (m : List (String × α)) (u : String) (hu : u ≠ "") :
    (fs = .parsed m → load_user_data fs none = .dict m) ∧
    (fs = .missing ∨ fs = .corrupt →
      load_user_data fs none = .dict [] ∧
      load_user_data fs (some u) = .pynone) := by
  constructor
  · rintro rfl
    rfl
  · rintro (rfl | rfl) <;> exact ⟨rfl, by simp [load_user_data, hu]⟩

/-- Witness for C4: a parsed file returns its mapping; a missing file reads
as the empty user set without a username and as `None` with one. -/
theorem load_user_data_spec_witness :
    (load_user_data (FileState.parsed [("Alice", (42 : ℚ))]) none =
      .dict [("Alice", (42 : ℚ))]) ∧
    load_user_data (FileState.missing : FileState ℚ) none = .dict [] ∧
    load_user_data (FileState.missing : FileState ℚ) (some "Alice") = .pynone :=
  ⟨(load_user_data_spec (FileState.parsed [("Alice", (42 : ℚ))])
      [("Alice", (42 : ℚ))] "Alice" (by decide)).1 rfl,
   (load_user_data_spec (FileState.missing : FileState ℚ) [] "Alice"
      (by decide)).2 (Or.inl rfl)⟩

/-- C9: the five `between_time` windows (Morning 06:00–09:00, Noon
09:00–12:00, Afternoon 12:00–18:00, Evening 18:00–21:00, Night 21:00–06:00
wrapping midnight) are inclusive at both endpoints, so every time of day
lies in at least one window, and each of the five boundary times 06:00,
09:00, 12:00, 18:00, 21:00 lies in exactly two windows — the windows do
not partition the day. -/
theorem time_periods_cover_and_overlap :
    (∀ t, t < 1440 → 1 ≤ periods_containing t) ∧
    (∀ t, t ∈ ([360, 540, 720, 1080, 1260] : List Nat) →
      periods_containing t = 2) := by
  constructor
  · intro t _
    simp only [periods_containing, time_periods, List.countP, List.countP.go,
      between_time]
    norm_num
    simp only [Bool.cond_eq_ite, Bool.and_eq_true, Bool.or_eq_true,
      decide_eq_true_eq]
    split_ifs <;> omega
  · intro t ht
    simp only [List.mem_cons, List.mem_singleton] at ht
    rcases ht with rfl | rfl | rfl | rfl | rfl | h <;> first | decide | cases h

/-- Witness for C9: 07:00 lies in at least one window, and 06:00 lies in
exactly two. -/
theorem time_periods_cover_and_overlap_witness :
    1 ≤ periods_containing 420 ∧ periods_containing 360 = 2 :=
  ⟨time_periods_cover_and_overlap.1 420 (by norm_num),
   time_periods_cover_and_overlap.2 360 (by simp)⟩

/-- C6 counterexample: a dataset with `Date`, `Time`, the glucose column and
`Meal` but without the optional `Notes` column *is* rejected with the
missing-columns dialog by `InsightsGenerator.show_insights` (line 131
requires `Notes` too), even though `MainFrame.generate_insights` accepts
it. -/
theorem show_insights_requires_notes_counterexample :
    show_insights_rejected true
      ["Date", "Time", "Blood Glucose Level (mg/dL)", "Meal"] = true ∧
    generate_insights_rejected
      ["Date", "Time", "Blood Glucose Level (mg/dL)", "Meal"] = false := by
  decide

/-- C6 (amended): `MainFrame.generate_insights` — the implementation wired
to the Generate Insights button — requires only the `Meal` and glucose
columns and proceeds without `Notes`; `InsightsGenerator.show_insights`
additionally requires `Notes` and rejects any dataset lacking it with the
missing-columns dialog. -/
theorem insights_column_requirements (cols : List String)
    (hm : cols.contains "Meal" = true)
    (hg : cols.contains "Blood Glucose Level (mg/dL)" = true) :
    generate_insights_rejected cols = false ∧
    (cols.contains "Notes" = false → show_insights_rejected true cols = true) := by
  have hm' : "Meal" ∈ cols := by simpa using hm
  have hg' : "Blood Glucose Level (mg/dL)" ∈ cols := by simpa using hg
  constructor
  · simp [generate_insights_rejected, hm', hg']
  · intro hn
    have hn' : "Notes" ∉ cols := by simpa using hn
    simp [show_insights_rejected, hn']

/-- Witness for C6 at the concrete Notes-free header list. -/
theorem insights_column_requirements_witness :
    generate_insights_rejected
      ["Date", "Time", "Blood Glucose Level (mg/dL)", "Meal"] = false ∧
    (List.contains ["Date", "Time", "Blood Glucose Level (mg/dL)", "Meal"]
        "Notes" = false →
      show_insights_rejected true
        ["Date", "Time", "Blood Glucose Level (mg/dL)", "Meal"] = true) :=
  insights_column_requirements
    ["Date", "Time", "Blood Glucose Level (mg/dL)", "Meal"]
    (by decide) (by decide)

/-- C10 counterexample: a user file whose only record lacks the
`bmi` key does *not* leave `bmi_data` unassigned: `analyze_all_users`
assigns it the empty dict before showing the dialog, and
`show_bmi_all_users` then returns cleanly rather than raising
`AttributeError`. -/
theorem show_bmi_no_matching_record_counterexample :
    show_bmi_all_users (.parsed [("u", ⟨none, some "Type 1"⟩)]) none =
      .cleanReturn ∧
    (analyze_all_users (.parsed [("u", ⟨none, some "Type 1"⟩)]) none).1 =
      some [] := by
  decide

/-- C10 (amended): with no prior successful invocation (`bmi_data` never
assigned), an empty user set makes `analyze_all_users` return after the
dialog *without* assigning `bmi_data`, so the caller's read raises
`AttributeError`; but when users exist and none has both `bmi` and
`diabetes_type`, `bmi_data` *is* assigned the empty dict and the caller
returns cleanly after the dialog. -/
theorem analyze_all_users_attr_spec (fs : FileState BRec) :
    ((load_all fs).isEmpty = true →
      analyze_all_users fs none = (none, some "No user data found.") ∧
      show_bmi_all_users fs none = .attrError) ∧
    ((load_all fs).isEmpty = false → (bmi_filter (load_all fs)).isEmpty = true →
      (analyze_all_users fs none).1 = some [] ∧
      show_bmi_all_users fs none = .cleanReturn) := by
  constructor
  · intro h
    have ha : analyze_all_users fs none = (none, some "No user data found.") := by
      simp [analyze_all_users, h]
    exact ⟨ha, by simp [show_bmi_all_users, ha]⟩
  · intro h1 h2
    have hb : bmi_filter (load_all fs) = [] := by
      simpa [List.isEmpty_iff] using h2
    have ha : (analyze_all_users fs none) =
        (some [], some "No BMI or diabetes type data available for users.") := by
      simp [analyze_all_users, h1, hb]
    exact ⟨by simp [ha], by simp [show_bmi_all_users, ha]⟩

/-- Witness for C10: a missing user file leads to `AttributeError`; a
single record without `bmi` leads to a clean return. -/
theorem analyze_all_users_attr_spec_witness :
    show_bmi_all_users (FileState.missing : FileState BRec) none =
      ShowOutcome.attrError ∧
    show_bmi_all_users (.parsed [("w", ⟨none, some "Type 2"⟩)]) none =
      ShowOutcome.cleanReturn :=
  ⟨((analyze_all_users_attr_spec FileState.missing).1 (by decide)).2,
   ((analyze_all_users_attr_spec
      (.parsed [("w", ⟨none, some "Type 2"⟩)])).2 (by decide) (by decide)).2⟩

/-- C8: `save_user_data(new_data)` re-reads the user file, applies
`data.update(new_data)` and writes the result: when the prior file parses
to mapping `m` (keys of a Python dict are unique), every previously stored
record survives unchanged except those whose names are keys of `new_data`
(replaced by the new records), and no record is ever deleted. -/
theorem save_user_data_preserves_records (m new_data : List (String × UserRecord))
    (hnd : (new_data.map Prod.fst).Nodup) :
    ∃ m', save_user_data (.parsed m) new_data = .parsed m' ∧
      (∀ q, alookup new_data q = none → alookup m' q = alookup m q) ∧
      (∀ q v, alookup new_data q = some v → alookup m' q = some v) ∧
      (∀ q, (alookup m q).isSome → (alookup m' q).isSome) := by
  refine ⟨dictUpdate m new_data, rfl, ?_, ?_, ?_⟩
  · intro q hq
    rw [alookup_dictUpdate new_data hnd m q, hq]
  · intro q v hq
    rw [alookup_dictUpdate new_data hnd m q, hq]
  · intro q hq
    rw [alookup_dictUpdate new_data hnd m q]
    cases h : alookup new_data q <;> simp [h, hq]

/-- Python tuple `<` on `(month, day)` pairs agrees with lexicographic
order. -/
theorem tupLt_iff (a b c d : Nat) :
    tupLt (a, b) (c, d) = true ↔ a < c ∨ (a = c ∧ b < d) := by
  simp [tupLt]

/-- Every successful `save_user_info` went through the whole validation
chain: the date of birth parsed, both floats parsed, the height was
nonzero, and the stored record and updated dict are exactly the ones built
on lines 220–230. -/
theorem save_ok_elim (pf : String → Option ℚ) (today : PDate)
    (selected : Option String) (users : List (String × UserRecord))
    (f : InfoForm) (r : UserRecord) (users' : List (String × UserRecord))
    (hs : save_user_info pf today selected users f = (.ok r, users')) :
    ∃ bd w h0, parseDateYMD f.dob = some bd ∧ pf f.weightStr = some w ∧
      pf f.heightStr = some h0 ∧ h0 ≠ 0 ∧
      r = mkUserRecord today f bd w h0 ∧
      users' = assocSet users f.name r := by
  unfold save_user_info at hs
  iterate 10 (all_goals try split at hs)
  all_goals try (exfalso; revert hs; simp; done)
  all_goals simp only [Prod.mk.injEq, SaveResult.ok.injEq] at hs
  all_goals obtain ⟨h1, h2⟩ := hs
  all_goals subst h1
  all_goals refine ⟨_, _, _, by assumption, by assumption, by assumption, ?_,
    rfl, by simp_all⟩
  all_goals (intro hc; simp_all)

/-- Frame lemma: `save_user_info` either leaves `users_info` untouched or succeeds and
performs exactly the single dict assignment `users_info[name] = record`. -/
theorem save_snd (pf : String → Option ℚ) (today : PDate)
    (selected : Option String) (users : List (String × UserRecord))
    (f : InfoForm) :
    (save_user_info pf today selected users f).2 = users ∨
    ∃ r, save_user_info pf today selected users f =
      (.ok r, assocSet users f.name r) := by
  unfold save_user_info
  iterate 10 (all_goals try split)
  all_goals first | exact Or.inl rfl | exact Or.inr ⟨_, rfl⟩

/-- C1: for every weight `w` (kg) and height `h` (cm) that parse as floats
with `h` nonzero, the live BMI label shows `w / (h/100)²`, and whenever the
save succeeds the `bmi` stored in the user record equals `w / (h/100)²` —
weight in kilograms divided by the square of height in metres. -/
theorem bmi_formula_correct (pf : String → Option ℚ) (today : PDate)
    (selected : Option String) (users : List (String × UserRecord))
    (f : InfoForm) (w h : ℚ)
    (hw : pf f.weightStr = some w) (hh : pf f.heightStr = some h)
    (hnz : h ≠ 0) :
    update_bmi (pf f.weightStr) (pf f.heightStr) =
      .label (w / (h / 100) ^ 2) ∧
    ∀ r users', save_user_info pf today selected users f = (.ok r, users') →
      r.bmi = w / (h / 100) ^ 2 := by
  have h100 : h / 100 ≠ 0 := div_ne_zero hnz (by norm_num)
  constructor
  · rw [hw, hh]
    simp [update_bmi, h100]
  · intro r users' hs
    obtain ⟨bd, w', h0, hbd, hw', hh', hnz', hr, hu⟩ :=
      save_ok_elim pf today selected users f r users' hs
    rw [hw] at hw'
    rw [hh] at hh'
    obtain rfl := Option.some.inj hw'
    obtain rfl := Option.some.inj hh'
    rw [hr]
    rfl

/-- Witness for C1: weight 80 kg at height 200 cm shows BMI 80 / 2². -/
theorem bmi_formula_correct_witness :
    update_bmi (pfStub "80") (pfStub "200") =
      .label ((80 : ℚ) / ((200 : ℚ) / 100) ^ 2) :=
  (bmi_formula_correct pfStub ⟨2026, 10, 12⟩ none [] formA 80 200
    (by decide) (by decide) (by norm_num)).1

/-- C2: whenever the save succeeds with a date of birth parsing to `d`, the
age stored in the user record equals `today.year - d.year`, decremented by
exactly 1 when `(today.month, today.day)` is lexicographically less than
`(d.month, d.day)` — whole years elapsed, a birthday falling today already
counted. -/
theorem age_computation_correct (pf : String → Option ℚ) (today : PDate)
    (selected : Option String) (users : List (String × UserRecord))
    (f : InfoForm) (d : PDate) (hd : parseDateYMD f.dob = some d) :
    ∀ r users', save_user_info pf today selected users f = (.ok r, users') →
      r.age = today.year - d.year -
        (if today.month < d.month ∨ (today.month = d.month ∧ today.day < d.day)
         then 1 else 0) := by
  intro r users' hs
  obtain ⟨bd, w, h0, hbd, _, _, _, hr, _⟩ :=
    save_ok_elim pf today selected users f r users' hs
  rw [hd] at hbd
  obtain rfl := Option.some.inj hbd
  rw [hr]
  show today.year - d.year -
      (if tupLt (today.month, today.day) (d.month, d.day) then 1 else 0) = _
  by_cases hc : today.month < d.month ∨ (today.month = d.month ∧ today.day < d.day)
  · rw [if_pos ((tupLt_iff _ _ _ _).mpr hc), if_pos hc]
  · rw [if_neg (fun hb => hc ((tupLt_iff _ _ _ _).mp hb)), if_neg hc]

/-- Witness for C2: born 2000-01-15 and saved on 2026-10-12 (birthday
already passed this year), the stored age is 2026 − 2000 − 0 = 26. -/
theorem age_computation_correct_witness :
    (mkUserRecord ⟨2026, 10, 12⟩ formA ⟨2000, 1, 15⟩ 80 200).age =
      (2026 : Int) - 2000 -
        (if (10 : Nat) < 1 ∨ ((10 : Nat) = 1 ∧ (12 : Nat) < 15)
         then 1 else 0) := by
  have hdp : parseDateYMD "2000-01-15" = some ⟨2000, 1, 15⟩ := by decide
  have h200 : ((200 : ℚ) / 100) ≠ 0 := by norm_num
  have hsave : save_user_info pfStub ⟨2026, 10, 12⟩ none [] formA =
      (.ok (mkUserRecord ⟨2026, 10, 12⟩ formA ⟨2000, 1, 15⟩ 80 200),
       assocSet [] "Alice" (mkUserRecord ⟨2026, 10, 12⟩ formA ⟨2000, 1, 15⟩ 80 200)) := by
    simp [save_user_info, pfStub, formA, hdp, h200, alookup]
  exact age_computation_correct pfStub ⟨2026, 10, 12⟩ none [] formA
    ⟨2000, 1, 15⟩ (by decide) _ _ hsave

/-- C5 counterexample: an unparseable date of birth makes `save_user_info`
raise an uncaught `ValueError` from `strptime` (line 202 sits outside any
`try`), so this failing invocation shows *no* modal error dialog,
contradicting the claim that every listed failure does. -/
theorem save_unparseable_dob_counterexample :
    (save_user_info pfStub ⟨2026, 10, 12⟩ none [] formBadDob).1 =
      SaveResult.exn ∧
    ∀ msg, (save_user_info pfStub ⟨2026, 10, 12⟩ none [] formBadDob).1 ≠
      SaveResult.dialog msg := by
  have h : save_user_info pfStub ⟨2026, 10, 12⟩ none [] formBadDob =
      (.exn, []) := by decide
  exact ⟨by rw [h], fun msg hmsg => by rw [h] at hmsg; cases hmsg⟩

/-- C5 (amended): every failing invocation of `save_user_info` terminates
only the attempted save, leaving `users_info` (and hence the persisted
file, written only on success) exactly as before; empty name, empty date
of birth, unparseable weight/height, and unselected diabetes type each
show their modal error dialog, but an unparseable date of birth instead
raises an uncaught `ValueError` with no dialog (state still unchanged). -/
theorem save_user_info_failure_spec (pf : String → Option ℚ) (today : PDate)
    (selected : Option String) (users : List (String × UserRecord))
    (f : InfoForm) :
    ((∀ r, (save_user_info pf today selected users f).1 ≠ .ok r) →
      (save_user_info pf today selected users f).2 = users) ∧
    (f.name = "" →
      save_user_info pf today selected users f =
        (.dialog "Name is required.", users)) ∧
    (f.name ≠ "" →
      ¬((alookup users f.name).isSome ∧ some f.name ≠ selected) → f.dob = "" →
      save_user_info pf today selected users f =
        (.dialog "Date of birth is required.", users)) ∧
    (f.name ≠ "" →
      ¬((alookup users f.name).isSome ∧ some f.name ≠ selected) → f.dob ≠ "" →
      parseDateYMD f.dob = none →
      save_user_info pf today selected users f = (.exn, users)) ∧
    (∀ bd, f.name ≠ "" →
      ¬((alookup users f.name).isSome ∧ some f.name ≠ selected) → f.dob ≠ "" →
      parseDateYMD f.dob = some bd →
      (pf f.weightStr = none ∨ pf f.heightStr = none) →
      save_user_info pf today selected users f =
        (.dialog "Please enter valid weight and height.", users)) ∧
    (∀ bd w h0, f.name ≠ "" →
      ¬((alookup users f.name).isSome ∧ some f.name ≠ selected) → f.dob ≠ "" →
      parseDateYMD f.dob = some bd →
      pf f.weightStr = some w → pf f.heightStr = some h0 → h0 ≠ 0 →
      f.diabetes = "Choose Diabetes Type" →
      save_user_info pf today selected users f =
        (.dialog "Please select a diabetes type.", users)) := by
  refine ⟨?_, ?_, ?_, ?_, ?_, ?_⟩
  · intro hne
    rcases save_snd pf today selected users f with h | ⟨r, hr⟩
    · exact h
    · exact absurd (by rw [hr]) (hne r)
  · intro h
    simp [save_user_info, h]
  · intro h1 h2 h3
    simp [save_user_info, h1, h2, h3]
  · intro h1 h2 h3 h4
    simp [save_user_info, h1, h2, h3, h4]
  · intro bd h1 h2 h3 h4 h5
    rcases h5 with h5 | h5
    · simp [save_user_info, h1, h2, h3, h4, h5]
    · cases hwp : pf f.weightStr <;>
        simp [save_user_info, h1, h2, h3, h4, h5, hwp]
  · intro bd w h0 h1 h2 h3 h4 h5 h6 h7 h8
    have h100 : ¬(h0 / 100 = 0) := fun hc => h7 (by
      field_simp at hc
      exact hc)
    simp [save_user_info, h1, h2, h3, h4, h5, h6, h7, h8, h100]

/-- Witness for C5: an empty name produces the name dialog, and a
parseable weight with an unparseable height produces the weight/height
dialog; both leave the user dict unchanged. -/
theorem save_user_info_failure_spec_witness :
    (save_user_info pfStub ⟨2026, 10, 12⟩ none [("Alice", recA)]
      ⟨"", "Female", "2000-01-15", "80", "200", "Type 1"⟩ =
      (.dialog "Name is required.", [("Alice", recA)])) ∧
    save_user_info pfStub ⟨2026, 10, 12⟩ none []
      ⟨"Bob", "Male", "2000-01-15", "80", "xyz", "Type 1"⟩ =
      (.dialog "Please enter valid weight and height.", []) :=
  ⟨(save_user_info_failure_spec pfStub ⟨2026, 10, 12⟩ none [("Alice", recA)]
      ⟨"", "Female", "2000-01-15", "80", "200", "Type 1"⟩).2.1 rfl,
   (save_user_info_failure_spec pfStub ⟨2026, 10, 12⟩ none []
      ⟨"Bob", "Male", "2000-01-15", "80", "xyz", "Type 1"⟩).2.2.2.2.1
      ⟨2000, 1, 15⟩ (by decide) (by decide) (by decide) (by decide)
      (Or.inr (by decide))⟩

/-- C7 counterexample: submitting the form under the existing name "Alice"
while no user is selected is rejected with the duplicate-name dialog and
overwrites nothing — re-using a name *is* prevented (line 194) unless that
name is the currently selected user. -/
theorem save_duplicate_name_rejected_counterexample :
    save_user_info pfStub ⟨2026, 10, 12⟩ none [("Alice", recA)] formA =
      (.dialog "User already exists. Please choose a different name.",
       [("Alice", recA)]) := by
  decide

/-- C7 (amended): submitting the profile form under a name that already
exists in the user set overwrites the existing record under the same name
key exactly when that name is the currently selected user (the
duplicate-name dialog is then impossible); under any other selection the
save is rejected with the duplicate-name dialog and nothing changes. -/
theorem save_user_info_overwrite_spec (pf : String → Option ℚ) (today : PDate)
    (users : List (String × UserRecord)) (f : InfoForm)
    (hmem : (alookup users f.name).isSome = true) :
    ((∀ msg, (save_user_info pf today (some f.name) users f).1 = .dialog msg →
        msg ≠ "User already exists. Please choose a different name.") ∧
     (∀ r users',
        save_user_info pf today (some f.name) users f = (.ok r, users') →
        alookup users' f.name = some r)) ∧
    (∀ selected, some f.name ≠ selected → f.name ≠ "" →
      save_user_info pf today selected users f =
        (.dialog "User already exists. Please choose a different name.", users)) := by
  refine ⟨⟨?_, ?_⟩, ?_⟩
  · intro msg hmsg
    unfold save_user_info at hmsg
    iterate 10 (all_goals try split at hmsg)
    all_goals simp_all
    all_goals (subst hmsg; decide)
  · intro r users' hs
    obtain ⟨bd, w, h0, _, _, _, _, hr, hu⟩ :=
      save_ok_elim pf today (some f.name) users f r users' hs
    rw [hu, alookup_assocSet]
    simp
  · intro selected hne hname
    have hcond : (alookup users f.name).isSome ∧ some f.name ≠ selected :=
      ⟨hmem, hne⟩
    simp [save_user_info, hname, hcond]

/-- Witness for C7: with "Alice" both stored and selected, a re-save is
never rejected for the name existing; with no selection it is rejected and
the dict is unchanged. -/
theorem save_user_info_overwrite_spec_witness :
    (∀ msg,
      (save_user_info pfStub ⟨2026, 10, 12⟩ (some "Alice") [("Alice", recA)]
        formA).1 = .dialog msg →
      msg ≠ "User already exists. Please choose a different name.") ∧
    (∀ selected, some "Alice" ≠ selected → "Alice" ≠ "" →
      save_user_info pfStub ⟨2026, 10, 12⟩ selected [("Alice", recA)] formA =
        (.dialog "User already exists. Please choose a different name.",
         [("Alice", recA)])) :=
  ⟨(save_user_info_overwrite_spec pfStub ⟨2026, 10, 12⟩ [("Alice", recA)]
      formA (by decide)).1.1,
   (save_user_info_overwrite_spec pfStub ⟨2026, 10, 12⟩ [("Alice", recA)]
      formA (by decide)).2⟩

/-- Witness for C8: updating a one-user file with a new name keeps the old
record, stores the new one, and deletes nothing. -/
theorem save_user_data_preserves_records_witness :
    ∃ m', save_user_data (.parsed [("Alice", recA)]) [("Bob", recA)] =
        .parsed m' ∧
      (∀ q, alookup [("Bob", recA)] q = none →
        alookup m' q = alookup [("Alice", recA)] q) ∧
      (∀ q v, alookup [("Bob", recA)] q = some v → alookup m' q = some v) ∧
      (∀ q, (alookup [("Alice", recA)] q).isSome → (alookup m' q).isSome) :=
  save_user_data_preserves_records [("Alice", recA)] [("Bob", recA)] (by simp)

end BloodApp
